import Mathlib

/-!
A shallow embedding of the tow-truck dispatch backend
(`backend/tow_truck_app`): the order status update flow, the pricing
engine with weather adjustment, the location update and broadcast flow,
the WebSocket subscription access checks, rating creation, and the
support-ticket message flow.  Monetary values (Python `Decimal`) are
modelled as rationals; `Decimal.quantize(Decimal("0.01"), ROUND_HALF_UP)`
is modelled by `roundHalfUp2`.  Database rows are modelled as Lean
structures and tables as lists of rows.
-/

namespace TowTruckApp

/-- `Order.STATUS_CHOICES` from `models.py`. -/
inductive OrderStatus where
  | PENDING
  | CONFIRMED
  | ASSIGNED
  | IN_PROGRESS
  | COMPLETED
  | CANCELLED
deriving DecidableEq, Repr

/--
The transition table written in the spec (section 4.2): the linear happy
path PENDING → CONFIRMED → ASSIGNED → IN_PROGRESS → COMPLETED, with
CANCELLED reachable from every non-terminal state and no transition out
of COMPLETED or CANCELLED.  This definition follows the spec's words; it
is the reference point the code's update operation is compared against.
-/
def specAllowedTransition : OrderStatus → OrderStatus → Bool
  | .PENDING, .CONFIRMED => true
  | .CONFIRMED, .ASSIGNED => true
  | .ASSIGNED, .IN_PROGRESS => true
  | .IN_PROGRESS, .COMPLETED => true
  | .PENDING, .CANCELLED => true
  | .CONFIRMED, .CANCELLED => true
  | .ASSIGNED, .CANCELLED => true
  | .IN_PROGRESS, .CANCELLED => true
  | _, _ => false

/--
The slice of an `Order` row touched by `OrderUpdateSerializer`
(`serializers.py`, `fields = ("status", "final_price", "scheduled_time",
"completed_at", "tow_truck")`).  `final_price` is a nullable decimal,
`scheduled_time` and `completed_at` nullable datetimes (modelled as
naturals), `tow_truck` a nullable foreign key (modelled by id).
-/
structure OrderUpd where
  status : OrderStatus
  final_price : Option ℚ
  scheduled_time : Option Nat
  completed_at : Option Nat
  tow_truck : Option Nat
deriving DecidableEq, Repr

/--
A partial-update request body for `OrderUpdateStatusView`
(`OrderUpdateSerializer`): each serializer field may be absent (`none`),
in which case the stored value is kept.  Explicitly writing a null is not
needed by any claim and is not modelled.
-/
structure OrderUpdateRequest where
  status : Option OrderStatus
  final_price : Option ℚ
  scheduled_time : Option Nat
  completed_at : Option Nat
  tow_truck : Option Nat
deriving DecidableEq, Repr

/--
`serializer.save()` for `OrderUpdateSerializer`: the serializer declares
no `validate` hook and no per-field validators, so saving simply writes
every provided field onto the order row.
-/
def orderUpdateSave (req : OrderUpdateRequest) (o : OrderUpd) : OrderUpd :=
  { status := req.status.getD o.status
    final_price := match req.final_price with
      | some v => some v
      | none => o.final_price
    scheduled_time := match req.scheduled_time with
      | some v => some v
      | none => o.scheduled_time
    completed_at := match req.completed_at with
      | some v => some v
      | none => o.completed_at
    tow_truck := match req.tow_truck with
      | some v => some v
      | none => o.tow_truck }

/-- An `OrderStatusHistory` row as created by
`OrderUpdateStatusView.perform_update` (`views.py`). -/
structure HistoryRow where
  old_status : OrderStatus
  new_status : OrderStatus
  changed_by : Nat
deriving DecidableEq, Repr

/--
`OrderUpdateStatusView.perform_update` (`views.py`): calls
`self.get_object()` — a fresh database fetch yielding a Python instance
distinct from `serializer.instance` — reads `old_status` from it, then
runs `serializer.save()` (which applies whatever fields the request
carries, with no transition check, onto the serializer's own instance
and the database row).  The locally fetched `order` is never refreshed,
so the `OrderStatusHistory` row is created with `new_status =
order.status` read from that stale instance: the row records the
pre-update status in both columns.  The first component is the saved
order row (the database state); the second is the history row as the
code writes it.  The notification side effect is keyed on the same stale
`order.status` and reference data; it does not touch the order row and
is not needed by the claims about this view.
-/
def performUpdate (actor : Nat) (req : OrderUpdateRequest) (o : OrderUpd) :
    OrderUpd × HistoryRow :=
  let order := o
  let old := order.status
  let o' := orderUpdateSave req o
  (o', { old_status := old, new_status := order.status, changed_by := actor })

/--
`Decimal.quantize(Decimal("0.01"), rounding=ROUND_HALF_UP)` from
`services/pricing.py`: round to two decimal places with ties going away
from zero (Python's ROUND_HALF_UP).
-/
def roundHalfUp2 (x : ℚ) : ℚ :=
  if 0 ≤ x then ((⌊x * 100 + 1 / 2⌋ : ℤ) : ℚ) / 100
  else -(((⌊-(x * 100) + 1 / 2⌋ : ℤ) : ℚ) / 100)

/-- `fact` sub-object of a Yandex weather payload, as read by
`get_weather_multiplier` (`services/pricing.py`): `condition` and
`prec_type` keys, each possibly absent. -/
structure WeatherFact where
  condition : Option String
  prec_type : Option Int
deriving DecidableEq, Repr

/-- A weather payload as read by `get_weather_multiplier`: the `fact`
key, possibly absent (`weather.get("fact", {})`). -/
structure WeatherPayload where
  fact : Option WeatherFact
deriving DecidableEq, Repr

/-- `WEATHER_MULTIPLIERS` from `services/pricing.py`, as an association
list from condition code to decimal multiplier. -/
def WEATHER_MULTIPLIERS : List (String × ℚ) :=
  [("clear", 1),
   ("partly-cloudy", 1),
   ("cloudy", 105 / 100),
   ("overcast", 107 / 100),
   ("rain", 115 / 100),
   ("drizzle", 110 / 100),
   ("light-rain", 112 / 100),
   ("showers", 118 / 100),
   ("snow", 120 / 100),
   ("light-snow", 115 / 100),
   ("wet-snow", 125 / 100),
   ("storm", 130 / 100),
   ("thunderstorm", 135 / 100)]

/--
`get_weather_multiplier` (`services/pricing.py`).  `none` covers the
falsy payload (`if not weather`).  Otherwise the condition is looked up
in `WEATHER_MULTIPLIERS`; failing that, `fact.prec_type` 1/2/3 map to
1.12/1.20/1.18, and everything else falls through to 1.00.
-/
def get_weather_multiplier (weather : Option WeatherPayload) : ℚ :=
  match weather with
  | none => 1
  | some w =>
    let fact := w.fact.getD { condition := none, prec_type := none }
    match fact.condition.bind (fun c => WEATHER_MULTIPLIERS.lookup c) with
    | some m => m
    | none =>
      if fact.prec_type == some 1 then 112 / 100
      else if fact.prec_type == some 2 then 120 / 100
      else if fact.prec_type == some 3 then 118 / 100
      else 1

/-- The pricing-relevant columns of `VehicleType` (`models.py`): both
decimal fields are non-null (`per_km_rate` defaults to 0).  The other
columns (name, description, max_weight) play no part in pricing. -/
structure VehicleType where
  base_price : ℚ
  per_km_rate : ℚ
deriving DecidableEq, Repr

/-- The breakdown dictionary returned by `calculate_price`
(`services/pricing.py`); the Python code stores the values as strings,
modelled here by the underlying numbers and payload. -/
structure Breakdown where
  base_price : ℚ
  distance_component : ℚ
  multiplier : ℚ
  distance_km : ℚ
  weather : WeatherPayload
deriving DecidableEq, Repr

/--
`calculate_price` (`services/pricing.py`).  The network call
`fetch_weather(lat, lon)` is I/O; its result (possibly `None`) is passed
in as `weather_payload`.  `vehicle_type.base_price or Decimal("0")` only
replaces a falsy value (0) by 0 on these non-null columns, so it is the
identity and written as the plain field.  `weather_payload or {}` stores
the empty payload when the lookup returned nothing.
-/
def calculate_price (vehicle_type : VehicleType) (distance_km : ℚ)
    (weather_payload : Option WeatherPayload) : ℚ × Breakdown :=
  let base_price := vehicle_type.base_price
  let distance_component := vehicle_type.per_km_rate * distance_km
  let multiplier := get_weather_multiplier weather_payload
  let subtotal := base_price + distance_component
  let total := roundHalfUp2 (subtotal * multiplier)
  (total,
   { base_price := base_price
     distance_component := roundHalfUp2 distance_component
     multiplier := multiplier
     distance_km := distance_km
     weather := weather_payload.getD { fact := none } })

/-- A user as the views and consumers see it: primary key, the `is_staff`
flag and the role code stored in the `user_type` column
(`user_type_id`). -/
structure AppUser where
  id : Nat
  is_staff : Bool
  user_type_id : String
deriving DecidableEq, Repr

/-- The columns of `TowTruck` (`models.py`) used by the location flow:
nullable driver foreign key, nullable coordinates, last update
timestamp. -/
structure TowTruckRec where
  id : Nat
  driver : Option Nat
  current_location_lat : Option ℚ
  current_location_lon : Option ℚ
  last_location_update : Option Nat
deriving DecidableEq, Repr

/-- The columns of `Order` (`models.py`) used by the broadcast, rating
and subscription flows: client and nullable tow-truck foreign keys plus
the status. -/
structure OrderRec where
  id : Nat
  client : Nat
  tow_truck : Option Nat
  status : OrderStatus
deriving DecidableEq, Repr

/-- The error taxonomy surfaced by the embedded views: DRF
`ValidationError`, `PermissionDenied`, `Http404` and the database
uniqueness violation raised by a one-to-one constraint. -/
inductive ApiError where
  | validation
  | forbidden
  | notFound
  | uniqueViolation
deriving DecidableEq, Repr

/-- One `channel_layer.group_send` call, identified by the target group
name; the payload (the serialized coordinate) is not needed by any
claim. -/
structure GroupSend where
  group : String
deriving DecidableEq, Repr

/-- `LocationUpdateSerializer.validate_latitude` (`serializers.py`):
accepts `-90 <= value <= 90`. -/
def validate_latitude (value : ℚ) : Bool :=
  decide (-90 ≤ value ∧ value ≤ 90)

/-- `LocationUpdateSerializer.validate_longitude` (`serializers.py`):
accepts `-180 <= value <= 180`. -/
def validate_longitude (value : ℚ) : Bool :=
  decide (-180 ≤ value ∧ value ≤ 180)

/-- The statuses treated as active by `update_location` (`views.py`,
`active_statuses`). -/
def active_statuses : List OrderStatus :=
  [.PENDING, .CONFIRMED, .ASSIGNED, .IN_PROGRESS]

/--
`update_location` (`views.py`).  Checks the caller's role, validates the
coordinates through `LocationUpdateSerializer` (both field validators run
and any failure raises one `ValidationError`, before any truck is
touched), loads the caller's truck (`Http404` when none), persists the
new coordinate and timestamp, and — the channel layer being configured —
publishes one message to the truck's group and one to the group of every
order assigned to this truck whose status is in `active_statuses`.
Returns the truck table (unchanged on every error path) together with
either the error or the list of `group_send` calls in order.
-/
def update_location (now : Nat) (user : AppUser) (trucks : List TowTruckRec)
    (orders : List OrderRec) (latitude longitude : ℚ) :
    List TowTruckRec × Except ApiError (List GroupSend) :=
  if user.user_type_id ≠ "DRIVER" then
    (trucks, .error .forbidden)
  else if ¬ (validate_latitude latitude = true ∧ validate_longitude longitude = true) then
    (trucks, .error .validation)
  else
    match trucks.find? (fun t => t.driver == some user.id) with
    | none => (trucks, .error .notFound)
    | some t =>
      let t' := { t with
        current_location_lat := some latitude
        current_location_lon := some longitude
        last_location_update := some now }
      let trucks' := trucks.map (fun x => if x.id = t.id then t' else x)
      let msgs : List GroupSend :=
        { group := "tow_truck_" ++ toString t.id } ::
          (orders.filter (fun o =>
            o.tow_truck == some t.id && active_statuses.contains o.status)).map
            (fun o => { group := "order_" ++ toString o.id })
      (trucks', .ok msgs)

/-- A reference-table row of `UserType`; the WebSocket consumer reads the
related instance itself (`self.user.user_type`), not its code. -/
structure UserTypeRef where
  code : String
deriving DecidableEq, Repr

/-- A user as `consumers.py` sees it: the `user_type` attribute resolves
the foreign key to the related `UserType` instance. -/
structure ConsumerUser where
  id : Nat
  is_staff : Bool
  user_type : UserTypeRef
deriving DecidableEq, Repr

/--
Python semantics of `self.user.user_type == "OPERATOR"` in
`consumers.py`: a Django `Model.__eq__` against a value that is not a
model instance returns `False`, whatever the instance's code is (the
rest of the codebase compares `user_type_id` instead).
-/
def modelEqString (_role : UserTypeRef) (_s : String) : Bool := false

/-- `LocationConsumer._can_access_order` (`consumers.py`). -/
def can_access_order (user : Option ConsumerUser) (order : OrderRec)
    (truck : Option TowTruckRec) : Bool :=
  match user with
  | none => false
  | some u =>
    if u.is_staff || modelEqString u.user_type "OPERATOR" then true
    else if order.client == u.id then true
    else
      match truck with
      | some t => t.driver == some u.id
      | none => false

/-- `LocationConsumer._can_access_tow_truck` (`consumers.py`). -/
def can_access_tow_truck (user : Option ConsumerUser) (truck : TowTruckRec) : Bool :=
  match user with
  | none => false
  | some u =>
    if u.is_staff || modelEqString u.user_type "OPERATOR" then true
    else truck.driver == some u.id

/-- Outcome of `LocationConsumer.connect`: either the connection is
closed with a code, or it is accepted after the channel joined the named
group. -/
inductive ConnectResult where
  | closed (code : Nat)
  | accepted (group : String)
deriving DecidableEq, Repr

/--
`LocationConsumer.connect` on the order route (`consumers.py`): close
4001 when authentication fails, 4004 when the order id resolves to no
row, 4003 when `_can_access_order` refuses; otherwise `group_add` on
`order_<id>` and accept.  `truck` is the order's resolved `tow_truck`
relation.
-/
def connect_order (user : Option ConsumerUser) (order : Option OrderRec)
    (truck : Option TowTruckRec) : ConnectResult :=
  match user with
  | none => .closed 4001
  | some u =>
    match order with
    | none => .closed 4004
    | some o =>
      if can_access_order (some u) o truck then
        .accepted ("order_" ++ toString o.id)
      else .closed 4003

/-- `LocationConsumer.connect` on the tow-truck route (`consumers.py`):
close 4001 unauthenticated, 4004 unknown truck, 4003 refused; otherwise
join `tow_truck_<id>` and accept. -/
def connect_tow_truck (user : Option ConsumerUser) (truck : Option TowTruckRec) :
    ConnectResult :=
  match user with
  | none => .closed 4001
  | some u =>
    match truck with
    | none => .closed 4004
    | some t =>
      if can_access_tow_truck (some u) t then
        .accepted ("tow_truck_" ++ toString t.id)
      else .closed 4003

/-- A `Rating` row (`models.py`): one-to-one with an order, two ratings
in `[1, 5]`, free-form comment. -/
structure RatingRow where
  order_id : Nat
  driver_rating : Nat
  service_rating : Nat
  comment : String
deriving DecidableEq, Repr

/--
`RatingCreateView` (`views.py`).  `serializer.is_valid` first enforces
the model validators `MinValueValidator(1)`/`MaxValueValidator(5)` on
both ratings; `perform_create` then runs
`get_object_or_404(Order, id=order_id, client=request.user,
status="COMPLETED")` and saves the rating against that order.  The
`OneToOneField` on `Rating.order` carries a database uniqueness
constraint, so inserting a second rating for the same order raises an
integrity (uniqueness) error.  Returns the updated rating table.
-/
def rating_create (orders : List OrderRec) (ratings : List RatingRow)
    (userId orderId : Nat) (driver_rating service_rating : Nat) (comment : String) :
    Except ApiError (List RatingRow) :=
  if ¬ (1 ≤ driver_rating ∧ driver_rating ≤ 5 ∧
        1 ≤ service_rating ∧ service_rating ≤ 5) then
    .error .validation
  else
    match orders.find? (fun o =>
        o.id == orderId && o.client == userId && o.status == OrderStatus.COMPLETED) with
    | none => .error .notFound
    | some o =>
      if ratings.any (fun r => r.order_id == o.id) then .error .uniqueViolation
      else
        .ok ({ order_id := o.id, driver_rating := driver_rating,
               service_rating := service_rating, comment := comment } :: ratings)

/-- The columns of `SupportTicket` (`models.py`) used by the message
flow: author, status code (a `TicketStatus` foreign key stored as
`status_id`), nullable assigned operator, nullable last-message
timestamp. -/
structure SupportTicketRec where
  id : Nat
  author : Nat
  status_id : String
  assigned_to : Option Nat
  last_message_at : Option Nat
deriving DecidableEq, Repr

/-- A `SupportMessage` row (`models.py`). -/
structure SupportMessageRec where
  ticket : Nat
  author : Nat
  body : String
  is_internal : Bool
  created_at : Nat
deriving DecidableEq, Repr

/-- `SupportMessageListCreateView._has_access` (`views.py`): operators
and staff, the ticket's author, and the assigned operator may see the
ticket. -/
def support_has_access (user : AppUser) (ticket : SupportTicketRec) : Bool :=
  if user.is_staff || user.user_type_id == "OPERATOR" then true
  else if ticket.author == user.id then true
  else ticket.assigned_to == some user.id

/--
`SupportMessageListCreateView.perform_create` (`views.py`), together
with the access check done by `get_ticket` and
`SupportMessageCreateSerializer.validate_is_internal` (internal notes
are restricted to staff/operators).  `ticket_statuses` is the
`TicketStatus` reference table (list of codes).  On success the ticket's
`last_message_at` becomes the new message's creation time; if the ticket
is OPEN and the poster is not its author, the status advances to
IN_PROGRESS (provided that reference row exists); if the ticket is
unassigned and the poster is staff or an operator, the poster is
assigned.
-/
def support_message_create (ticket_statuses : List String) (user : AppUser)
    (ticket : SupportTicketRec) (body : String) (is_internal : Bool) (now : Nat) :
    Except ApiError (SupportTicketRec × SupportMessageRec) :=
  if ¬ support_has_access user ticket then .error .forbidden
  else if is_internal ∧ ¬ user.is_staff ∧ user.user_type_id ≠ "OPERATOR" then
    .error .validation
  else
    let message : SupportMessageRec :=
      { ticket := ticket.id, author := user.id, body := body,
        is_internal := is_internal, created_at := now }
    let t1 := { ticket with last_message_at := some message.created_at }
    let t2 :=
      if ticket.status_id == "OPEN" && user.id != ticket.author then
        if ticket_statuses.contains "IN_PROGRESS" then
          { t1 with status_id := "IN_PROGRESS" }
        else t1
      else t1
    let t3 :=
      if ticket.assigned_to == none &&
          (user.is_staff || user.user_type_id == "OPERATOR") then
        { t2 with assigned_to := some user.id }
      else t2
    .ok (t3, message)

/--
C1 counterexample.  The spec's table forbids PENDING → COMPLETED, yet the
status-update operation accepts exactly that request: it neither fails
with `InvalidTransition` nor leaves the status unchanged.  The history
row it appends is read from the stale instance fetched before
`serializer.save()`, so it records PENDING in both columns.
-/
theorem c1_counterexample_pending_to_completed :
    specAllowedTransition OrderStatus.PENDING OrderStatus.COMPLETED = false ∧
    (performUpdate 7
      { status := some .COMPLETED, final_price := none, scheduled_time := none,
        completed_at := none, tow_truck := none }
      { status := .PENDING, final_price := none, scheduled_time := none,
        completed_at := none, tow_truck := none }).1.status = OrderStatus.COMPLETED ∧
    (performUpdate 7
      { status := some .COMPLETED, final_price := none, scheduled_time := none,
        completed_at := none, tow_truck := none }
      { status := .PENDING, final_price := none, scheduled_time := none,
        completed_at := none, tow_truck := none }).2 =
      { old_status := .PENDING, new_status := .PENDING, changed_by := 7 } := by
  refine ⟨rfl, rfl, rfl⟩

/--
C1 amended.  The status-update operation performs no transition
validation at all: for every order and every requested status it
succeeds and sets the order's status to the requested value — in
particular a direct PENDING → COMPLETED update is accepted, not
rejected.  The history row it appends carries the pre-update status in
both `old_status` and `new_status`, because the view reads `new_status`
from an order instance fetched before `serializer.save()` and never
refreshed.
-/
theorem c1_update_accepts_any_status (actor : Nat) (req : OrderUpdateRequest)
    (o : OrderUpd) (s : OrderStatus) (hs : req.status = some s) :
    (performUpdate actor req o).1.status = s ∧
    (performUpdate actor req o).2 =
      { old_status := o.status, new_status := o.status, changed_by := actor } := by
  simp [performUpdate, orderUpdateSave, hs]

/-- Witness for `c1_update_accepts_any_status` at a concrete PENDING
order asked to jump straight to COMPLETED: the saved row is COMPLETED
while the history row carries PENDING twice. -/
theorem c1_update_accepts_any_status_witness :
    (performUpdate 3
      { status := some .COMPLETED, final_price := none, scheduled_time := none,
        completed_at := none, tow_truck := none }
      { status := .PENDING, final_price := none, scheduled_time := none,
        completed_at := none, tow_truck := none }).1.status = OrderStatus.COMPLETED ∧
    (performUpdate 3
      { status := some .COMPLETED, final_price := none, scheduled_time := none,
        completed_at := none, tow_truck := none }
      { status := .PENDING, final_price := none, scheduled_time := none,
        completed_at := none, tow_truck := none }).2 =
      { old_status := .PENDING, new_status := .PENDING, changed_by := 3 } :=
  c1_update_accepts_any_status 3
    { status := some .COMPLETED, final_price := none, scheduled_time := none,
      completed_at := none, tow_truck := none }
    { status := .PENDING, final_price := none, scheduled_time := none,
      completed_at := none, tow_truck := none }
    .COMPLETED rfl

/--
C5 counterexample.  Transitioning a PENDING order straight to COMPLETED
with a request that carries no `completed_at` leaves `completed_at`
unset, and a CONFIRMED transition whose request carries
`completed_at = 5` does set it — so `completed_at` is not set at the
moment the status becomes COMPLETED, and it can be set by other
transitions.
-/
theorem c5_counterexample_completed_at_not_automatic :
    (performUpdate 7
      { status := some .COMPLETED, final_price := none, scheduled_time := none,
        completed_at := none, tow_truck := none }
      { status := .PENDING, final_price := none, scheduled_time := none,
        completed_at := none, tow_truck := none }).1.completed_at = none ∧
    (performUpdate 7
      { status := some .CONFIRMED, final_price := none, scheduled_time := none,
        completed_at := some 5, tow_truck := none }
      { status := .PENDING, final_price := none, scheduled_time := none,
        completed_at := none, tow_truck := none }).1.completed_at = some 5 := by
  refine ⟨rfl, rfl⟩

/--
C5 amended.  The status-update operation never sets `completed_at` on
its own: after any update, `completed_at` equals the value supplied in
the request when one is present and the previously stored value
otherwise, irrespective of the transition performed — the field is
writable on every update, COMPLETED or not.
-/
theorem c5_completed_at_is_request_controlled (actor : Nat)
    (req : OrderUpdateRequest) (o : OrderUpd) :
    (performUpdate actor req o).1.completed_at =
      match req.completed_at with
      | some t => some t
      | none => o.completed_at := by
  cases h : req.completed_at <;> simp [performUpdate, orderUpdateSave, h]

/--
C3.  The estimate equals
`round_half_up((base_price + per_km_rate * distance) * multiplier, 2)`,
and at base_price 2500, rate 120, distance 10 it is exactly 3700 under
the clear-weather multiplier 1.00 and exactly 4255 under the rain
multiplier 1.15.
-/
theorem c3_price_formula (vt : VehicleType) (d : ℚ)
    (w : Option WeatherPayload) (hd : 0 < d) :
    (calculate_price vt d w).1 =
      roundHalfUp2 ((vt.base_price + vt.per_km_rate * d) * get_weather_multiplier w) ∧
    (calculate_price { base_price := 2500, per_km_rate := 120 } 10
      (some { fact := some { condition := some "clear", prec_type := none } })).1 = 3700 ∧
    (calculate_price { base_price := 2500, per_km_rate := 120 } 10
      (some { fact := some { condition := some "rain", prec_type := none } })).1 = 4255 := by
  have hclear :
      get_weather_multiplier
        (some { fact := some { condition := some "clear", prec_type := none } }) = 1 := by
    simp [get_weather_multiplier, WEATHER_MULTIPLIERS, List.lookup]
  have hrain :
      get_weather_multiplier
        (some { fact := some { condition := some "rain", prec_type := none } }) =
        115 / 100 := by
    simp [get_weather_multiplier, WEATHER_MULTIPLIERS, List.lookup]
  refine ⟨rfl, ?_, ?_⟩
  · simp only [calculate_price, hclear]
    norm_num [roundHalfUp2]
  · simp only [calculate_price, hrain]
    norm_num [roundHalfUp2]

/-- Witness for `c3_price_formula` at distance 10. -/
theorem c3_price_formula_witness :
    (0 : ℚ) < 10 ∧
    (calculate_price { base_price := 2500, per_km_rate := 120 } 10 none).1 =
      roundHalfUp2 ((2500 + 120 * 10) * get_weather_multiplier none) :=
  ⟨by norm_num,
   (c3_price_formula { base_price := 2500, per_km_rate := 120 } 10 none
     (by norm_num)).1⟩

/--
C4.  When the weather lookup returns no payload the multiplier applied
is exactly 1.00, the breakdown records the empty weather payload, and
the price is still computed (the pricing function is total, so the
outage cannot make it fail).
-/
theorem c4_weather_outage_defaults (vt : VehicleType) (d : ℚ) :
    (calculate_price vt d none).2.multiplier = 1 ∧
    (calculate_price vt d none).2.weather = { fact := none } ∧
    (calculate_price vt d none).1 =
      roundHalfUp2 (vt.base_price + vt.per_km_rate * d) := by
  refine ⟨rfl, rfl, ?_⟩
  simp [calculate_price, get_weather_multiplier]

/--
C10.  When the payload's `fact.condition` is not a key of
`WEATHER_MULTIPLIERS`, the multiplier falls back to the precipitation
type: 1.12 for `prec_type` 1, 1.20 for 2, 1.18 for 3, and 1.00 only when
none of these is present.
-/
theorem c10_prec_type_fallback (f : WeatherFact)
    (hc : ∀ c, f.condition = some c → WEATHER_MULTIPLIERS.lookup c = none) :
    (f.prec_type = some 1 →
      get_weather_multiplier (some { fact := some f }) = 112 / 100) ∧
    (f.prec_type = some 2 →
      get_weather_multiplier (some { fact := some f }) = 120 / 100) ∧
    (f.prec_type = some 3 →
      get_weather_multiplier (some { fact := some f }) = 118 / 100) ∧
    (f.prec_type ≠ some 1 → f.prec_type ≠ some 2 → f.prec_type ≠ some 3 →
      get_weather_multiplier (some { fact := some f }) = 1) := by
  have hb : f.condition.bind (fun c => WEATHER_MULTIPLIERS.lookup c) = none := by
    cases h : f.condition with
    | none => rfl
    | some c => simpa using hc c h
  refine ⟨?_, ?_, ?_, ?_⟩ <;> intro h1
  · simp [get_weather_multiplier, hb, h1]
  · simp [get_weather_multiplier, hb, h1]
  · simp [get_weather_multiplier, hb, h1]
  · intro h2 h3
    simp [get_weather_multiplier, hb, beq_iff_eq, h1, h2, h3]

/-- Witness for `c10_prec_type_fallback`: condition `hail` is not in the
table, and snow-type precipitation (`prec_type = 2`) yields 1.20. -/
theorem c10_prec_type_fallback_witness :
    get_weather_multiplier
      (some { fact := some { condition := some "hail", prec_type := some 2 } }) =
      120 / 100 :=
  (c10_prec_type_fallback { condition := some "hail", prec_type := some 2 }
    (by intro c hc; cases hc; simp [WEATHER_MULTIPLIERS, List.lookup])).2.1 rfl

/--
C2.  On a successful location update the published messages are exactly
the truck's own group followed by one message per order assigned to this
truck with an active status — so their number is one plus the number of
such orders; concretely, a truck serving an ASSIGNED and an IN_PROGRESS
order triggers three `group_send` calls, and a truck serving a COMPLETED
and an ASSIGNED order triggers two.
-/
theorem c2_broadcast_fanout (now : Nat) (user : AppUser)
    (trucks : List TowTruckRec) (orders : List OrderRec) (lat lon : ℚ)
    (t : TowTruckRec) (trucks' : List TowTruckRec) (msgs : List GroupSend)
    (hfind : trucks.find? (fun tr => tr.driver == some user.id) = some t)
    (hok : update_location now user trucks orders lat lon = (trucks', Except.ok msgs)) :
    msgs =
      { group := "tow_truck_" ++ toString t.id } ::
        (orders.filter (fun o =>
          o.tow_truck == some t.id && active_statuses.contains o.status)).map
          (fun o => { group := "order_" ++ toString o.id }) ∧
    msgs.length =
      1 + (orders.filter (fun o =>
        o.tow_truck == some t.id && active_statuses.contains o.status)).length ∧
    (update_location 5 { id := 10, is_staff := false, user_type_id := "DRIVER" }
      [{ id := 1, driver := some 10, current_location_lat := none,
         current_location_lon := none, last_location_update := none }]
      [{ id := 100, client := 20, tow_truck := some 1, status := .ASSIGNED },
       { id := 101, client := 20, tow_truck := some 1, status := .IN_PROGRESS }]
      50 60).2 =
      Except.ok [{ group := "tow_truck_1" }, { group := "order_100" },
        { group := "order_101" }] ∧
    (update_location 5 { id := 10, is_staff := false, user_type_id := "DRIVER" }
      [{ id := 1, driver := some 10, current_location_lat := none,
         current_location_lon := none, last_location_update := none }]
      [{ id := 100, client := 20, tow_truck := some 1, status := .COMPLETED },
       { id := 101, client := 20, tow_truck := some 1, status := .ASSIGNED }]
      50 60).2 =
      Except.ok [{ group := "tow_truck_1" }, { group := "order_101" }] := by
  have hmain : msgs =
      { group := "tow_truck_" ++ toString t.id } ::
        (orders.filter (fun o =>
          o.tow_truck == some t.id && active_statuses.contains o.status)).map
          (fun o => { group := "order_" ++ toString o.id }) := by
    unfold update_location at hok
    split at hok
    · exact Except.noConfusion (congrArg Prod.snd hok)
    · split at hok
      · exact Except.noConfusion (congrArg Prod.snd hok)
      · rw [hfind] at hok
        have hmsg := congrArg Prod.snd hok
        simp only at hmsg
        exact (Except.ok.inj hmsg).symm
  refine ⟨hmain, ?_, by rfl, by rfl⟩
  rw [hmain]
  simp [List.length_map, Nat.add_comm]

/-- Witness for `c2_broadcast_fanout`: the truck with two active orders
yields a three-element publish list. -/
theorem c2_broadcast_fanout_witness :
    ([{ group := "tow_truck_1" }, { group := "order_100" },
      { group := "order_101" }] : List GroupSend).length =
      1 + (([{ id := 100, client := 20, tow_truck := some 1, status := .ASSIGNED },
             { id := 101, client := 20, tow_truck := some 1, status := .IN_PROGRESS }] :
            List OrderRec).filter (fun o =>
        o.tow_truck == some (1 : Nat) && active_statuses.contains o.status)).length :=
  (c2_broadcast_fanout 5 { id := 10, is_staff := false, user_type_id := "DRIVER" }
    [{ id := 1, driver := some 10, current_location_lat := none,
       current_location_lon := none, last_location_update := none }]
    [{ id := 100, client := 20, tow_truck := some 1, status := .ASSIGNED },
     { id := 101, client := 20, tow_truck := some 1, status := .IN_PROGRESS }]
    50 60
    { id := 1, driver := some 10, current_location_lat := none,
      current_location_lon := none, last_location_update := none }
    [{ id := 1, driver := some 10, current_location_lat := some 50,
       current_location_lon := some 60, last_location_update := some 5 }]
    [{ group := "tow_truck_1" }, { group := "order_100" }, { group := "order_101" }]
    (by rfl) (by rfl)).2.1

/-- `can_access_order` admits exactly staff, the order's client, and the
driver of the order's assigned truck (the `user_type == "OPERATOR"`
comparison is a model-versus-string comparison and never holds). -/
theorem can_access_order_iff (u : ConsumerUser) (o : OrderRec)
    (otr : Option TowTruckRec) :
    can_access_order (some u) o otr = true ↔
      (u.is_staff = true ∨ o.client = u.id ∨
        ∃ tr, otr = some tr ∧ tr.driver = some u.id) := by
  cases hst : u.is_staff <;> cases otr <;>
    simp [can_access_order, modelEqString, hst, beq_iff_eq]

/-- `can_access_tow_truck` admits exactly staff and the truck's driver. -/
theorem can_access_tow_truck_iff (u : ConsumerUser) (t : TowTruckRec) :
    can_access_tow_truck (some u) t = true ↔
      (u.is_staff = true ∨ t.driver = some u.id) := by
  cases hst : u.is_staff <;>
    simp [can_access_tow_truck, modelEqString, hst, beq_iff_eq]

/--
C6.  A connection on an order route is accepted only for the order's
client, the assigned truck's driver, or an operator/admin, and every
attempt outside that set is refused by closing the connection with code
4003; the same holds on a truck route for the truck's driver and
operators/admins.
-/
theorem c6_subscription_access_control (u : ConsumerUser) (o : OrderRec)
    (otr : Option TowTruckRec) (t : TowTruckRec) :
    (∀ g, connect_order (some u) (some o) otr = .accepted g →
      (o.client = u.id ∨ (∃ tr, otr = some tr ∧ tr.driver = some u.id) ∨
        u.is_staff = true ∨ u.user_type.code = "OPERATOR")) ∧
    (¬ (o.client = u.id ∨ (∃ tr, otr = some tr ∧ tr.driver = some u.id) ∨
        u.is_staff = true ∨ u.user_type.code = "OPERATOR") →
      connect_order (some u) (some o) otr = .closed 4003) ∧
    (∀ g, connect_tow_truck (some u) (some t) = .accepted g →
      (t.driver = some u.id ∨ u.is_staff = true ∨ u.user_type.code = "OPERATOR")) ∧
    (¬ (t.driver = some u.id ∨ u.is_staff = true ∨ u.user_type.code = "OPERATOR") →
      connect_tow_truck (some u) (some t) = .closed 4003) := by
  refine ⟨?_, ?_, ?_, ?_⟩
  · intro g hg
    simp only [connect_order] at hg
    split at hg
    · rcases (can_access_order_iff u o otr).mp (by assumption) with h | h | h
      · exact Or.inr (Or.inr (Or.inl h))
      · exact Or.inl h
      · exact Or.inr (Or.inl h)
    · exact ConnectResult.noConfusion hg
  · intro hna
    have hfalse : ¬ (can_access_order (some u) o otr = true) := by
      intro h
      rcases (can_access_order_iff u o otr).mp h with h' | h' | h'
      · exact hna (Or.inr (Or.inr (Or.inl h')))
      · exact hna (Or.inl h')
      · exact hna (Or.inr (Or.inl h'))
    simp only [connect_order]
    rw [if_neg hfalse]
  · intro g hg
    simp only [connect_tow_truck] at hg
    split at hg
    · rcases (can_access_tow_truck_iff u t).mp (by assumption) with h | h
      · exact Or.inr (Or.inl h)
      · exact Or.inl h
    · exact ConnectResult.noConfusion hg
  · intro hna
    have hfalse : ¬ (can_access_tow_truck (some u) t = true) := by
      intro h
      rcases (can_access_tow_truck_iff u t).mp h with h' | h'
      · exact hna (Or.inr (Or.inl h'))
      · exact hna (Or.inl h')
    simp only [connect_tow_truck]
    rw [if_neg hfalse]

/-- Witness for `c6_subscription_access_control`: the order's client is
accepted and lands in the order's group; an unrelated client is refused
with close code 4003 on both routes. -/
theorem c6_subscription_access_control_witness :
    ((5 : Nat) = 5 ∨
      (∃ tr, (none : Option TowTruckRec) = some tr ∧ tr.driver = some 5) ∨
      false = true ∨ "CLIENT" = "OPERATOR") ∧
    connect_order (some { id := 99, is_staff := false, user_type := { code := "CLIENT" } })
      (some { id := 1, client := 5, tow_truck := none, status := .PENDING }) none =
      .closed 4003 ∧
    connect_tow_truck (some { id := 99, is_staff := false, user_type := { code := "CLIENT" } })
      (some { id := 1, driver := some 7, current_location_lat := none,
              current_location_lon := none, last_location_update := none }) =
      .closed 4003 := by
  refine ⟨?_, ?_, ?_⟩
  · exact (c6_subscription_access_control
      { id := 5, is_staff := false, user_type := { code := "CLIENT" } }
      { id := 1, client := 5, tow_truck := none, status := .PENDING } none
      { id := 1, driver := some 7, current_location_lat := none,
        current_location_lon := none, last_location_update := none }).1
      "order_1" (by rfl)
  · exact (c6_subscription_access_control
      { id := 99, is_staff := false, user_type := { code := "CLIENT" } }
      { id := 1, client := 5, tow_truck := none, status := .PENDING } none
      { id := 1, driver := some 7, current_location_lat := none,
        current_location_lon := none, last_location_update := none }).2.1
      (by rintro (h | ⟨tr, htr, _⟩ | h | h) <;> simp_all)
  · exact (c6_subscription_access_control
      { id := 99, is_staff := false, user_type := { code := "CLIENT" } }
      { id := 1, client := 5, tow_truck := none, status := .PENDING } none
      { id := 1, driver := some 7, current_location_lat := none,
        current_location_lon := none, last_location_update := none }).2.2.2
      (by rintro (h | h | h) <;> simp_all)

/--
C7.  For a driver's location update, a latitude outside [-90, 90] or a
longitude outside [-180, 180] makes `update_location` fail with a
validation error and leaves the truck table untouched, whatever the
other field holds; in particular latitude 91 and longitude 181 fail the
serializer's validators.
-/
theorem c7_coordinate_validation (now : Nat) (user : AppUser)
    (trucks : List TowTruckRec) (orders : List OrderRec) (lat lon : ℚ)
    (hdrv : user.user_type_id = "DRIVER")
    (hbad : validate_latitude lat = false ∨ validate_longitude lon = false) :
    update_location now user trucks orders lat lon = (trucks, .error .validation) ∧
    validate_latitude 91 = false ∧ validate_longitude 181 = false := by
  refine ⟨?_, by decide, by decide⟩
  unfold update_location
  rw [if_neg (fun h => h hdrv)]
  rw [if_pos]
  rcases hbad with h | h <;> simp [h]

/-- Witness for `c7_coordinate_validation`: latitude 91 is rejected and
the (empty) truck table is returned unchanged. -/
theorem c7_coordinate_validation_witness :
    update_location 0 { id := 10, is_staff := false, user_type_id := "DRIVER" }
      [] [] 91 0 = ([], .error .validation) :=
  (c7_coordinate_validation 0 { id := 10, is_staff := false, user_type_id := "DRIVER" }
    [] [] 91 0 rfl (Or.inl (by decide))).1

/--
C8.  Rating creation fails with a lookup error unless an order with the
requested id, the caller as client, and status COMPLETED exists; when it
succeeds such an order exists; and once a rating has been stored for an
order, any further well-formed submission for the same order fails with
a uniqueness violation.
-/
theorem c8_rating_completed_and_unique (orders : List OrderRec)
    (ratings ratings' : List RatingRow) (u oid dr sr dr' sr' : Nat) (cm cm' : String)
    (hv : 1 ≤ dr ∧ dr ≤ 5 ∧ 1 ≤ sr ∧ sr ≤ 5)
    (hv' : 1 ≤ dr' ∧ dr' ≤ 5 ∧ 1 ≤ sr' ∧ sr' ≤ 5) :
    (orders.find? (fun o => o.id == oid && o.client == u &&
        o.status == OrderStatus.COMPLETED) = none →
      rating_create orders ratings u oid dr sr cm = .error .notFound) ∧
    (∀ res, rating_create orders ratings u oid dr sr cm = .ok res →
      ∃ o, o ∈ orders ∧ o.id = oid ∧ o.client = u ∧
        o.status = OrderStatus.COMPLETED) ∧
    (rating_create orders ratings u oid dr sr cm = .ok ratings' →
      rating_create orders ratings' u oid dr' sr' cm' = .error .uniqueViolation) := by
  refine ⟨?_, ?_, ?_⟩
  · intro hfind
    unfold rating_create
    rw [if_neg (not_not_intro hv), hfind]
  · intro res hok
    unfold rating_create at hok
    rw [if_neg (not_not_intro hv)] at hok
    cases hfo : orders.find? (fun o => o.id == oid && o.client == u &&
        o.status == OrderStatus.COMPLETED) with
    | none =>
      rw [hfo] at hok
      exact Except.noConfusion hok
    | some o =>
      rw [hfo] at hok
      have hp := List.find?_some hfo
      simp only [Bool.and_eq_true, beq_iff_eq] at hp
      exact ⟨o, List.mem_of_find?_eq_some hfo, hp.1.1, hp.1.2, hp.2⟩
  · intro hok
    unfold rating_create at hok
    rw [if_neg (not_not_intro hv)] at hok
    cases hfo : orders.find? (fun o => o.id == oid && o.client == u &&
        o.status == OrderStatus.COMPLETED) with
    | none =>
      rw [hfo] at hok
      exact Except.noConfusion hok
    | some o =>
      rw [hfo] at hok
      simp only at hok
      by_cases ha : ratings.any (fun r => r.order_id == o.id) = true
      · rw [if_pos ha] at hok
        exact Except.noConfusion hok
      · rw [if_neg ha] at hok
        have hr := Except.ok.inj hok
        have hany : ratings'.any (fun r => r.order_id == o.id) = true := by
          rw [← hr]
          simp
        unfold rating_create
        rw [if_neg (not_not_intro hv'), hfo]
        simp [hany]

/-- Witness for `c8_rating_completed_and_unique`: after the first rating
of a completed order, a second submission for the same order fails with
the uniqueness violation. -/
theorem c8_rating_completed_and_unique_witness :
    rating_create [{ id := 1, client := 5, tow_truck := none, status := .COMPLETED }]
      [{ order_id := 1, driver_rating := 5, service_rating := 4, comment := "ok" }]
      5 1 4 4 "again" = .error .uniqueViolation :=
  (c8_rating_completed_and_unique
    [{ id := 1, client := 5, tow_truck := none, status := .COMPLETED }]
    [] [{ order_id := 1, driver_rating := 5, service_rating := 4, comment := "ok" }]
    5 1 5 4 4 4 "ok" "again"
    (by decide) (by decide)).2.2 (by rfl)

/--
C9.  Posting a non-internal message by a non-author to an OPEN,
unassigned ticket (the IN_PROGRESS status row existing in the reference
table) moves the ticket to IN_PROGRESS, assigns the poster as the
ticket's operator, and stamps `last_message_at` with the new message's
creation time.
-/
theorem c9_open_ticket_advances (ticket_statuses : List String) (user : AppUser)
    (t : SupportTicketRec) (body : String) (now : Nat)
    (t' : SupportTicketRec) (msg : SupportMessageRec)
    (hopen : t.status_id = "OPEN") (hunassigned : t.assigned_to = none)
    (hauthor : user.id ≠ t.author)
    (hin : ticket_statuses.contains "IN_PROGRESS" = true)
    (hok : support_message_create ticket_statuses user t body false now =
      .ok (t', msg)) :
    t'.status_id = "IN_PROGRESS" ∧ t'.assigned_to = some user.id ∧
    t'.last_message_at = some msg.created_at ∧ msg.created_at = now := by
  by_cases hacc : support_has_access user t = true
  · have hso : (user.is_staff || (user.user_type_id == "OPERATOR")) = true := by
      by_contra hso
      unfold support_has_access at hacc
      rw [if_neg hso] at hacc
      rw [if_neg (fun h => hauthor (beq_iff_eq.mp h).symm)] at hacc
      rw [hunassigned] at hacc
      exact Bool.noConfusion hacc
    have hc1 : (t.status_id == "OPEN" && (user.id != t.author)) = true := by
      simp [hopen, bne_iff_ne, hauthor]
    have hc2 : ((t.assigned_to == none) &&
        (user.is_staff || (user.user_type_id == "OPERATOR"))) = true := by
      simp [hunassigned, hso]
    unfold support_message_create at hok
    rw [if_neg (not_not_intro hacc)] at hok
    rw [if_neg (by simp)] at hok
    simp only [hc1, hc2, hin, eq_self_iff_true, if_true] at hok
    simp only [Except.ok.injEq, Prod.mk.injEq] at hok
    obtain ⟨ht, hm⟩ := hok
    subst ht
    subst hm
    exact ⟨rfl, rfl, rfl, rfl⟩
  · unfold support_message_create at hok
    rw [if_pos hacc] at hok
    exact Except.noConfusion hok

/-- Witness for `c9_open_ticket_advances`: an operator replying to a
fresh OPEN ticket of client 5 takes it over. -/
theorem c9_open_ticket_advances_witness :
    ({ id := 1, author := 5, status_id := "IN_PROGRESS", assigned_to := some 9,
       last_message_at := some 42 } : SupportTicketRec).status_id = "IN_PROGRESS" ∧
    ({ id := 1, author := 5, status_id := "IN_PROGRESS", assigned_to := some 9,
       last_message_at := some 42 } : SupportTicketRec).assigned_to = some 9 ∧
    ({ id := 1, author := 5, status_id := "IN_PROGRESS", assigned_to := some 9,
       last_message_at := some 42 } : SupportTicketRec).last_message_at =
      some ({ ticket := 1, author := 9, body := "hi", is_internal := false,
              created_at := 42 } : SupportMessageRec).created_at ∧
    ({ ticket := 1, author := 9, body := "hi", is_internal := false,
       created_at := 42 } : SupportMessageRec).created_at = 42 :=
  c9_open_ticket_advances ["OPEN", "IN_PROGRESS", "RESOLVED", "CLOSED"]
    { id := 9, is_staff := false, user_type_id := "OPERATOR" }
    { id := 1, author := 5, status_id := "OPEN", assigned_to := none,
      last_message_at := none }
    "hi" 42
    { id := 1, author := 5, status_id := "IN_PROGRESS", assigned_to := some 9,
      last_message_at := some 42 }
    { ticket := 1, author := 9, body := "hi", is_internal := false, created_at := 42 }
    rfl rfl (by decide) (by rfl) (by rfl)

end TowTruckApp
